import Mathlib

/-!
# NetCtrl — shallow embedding and verification

Shallow embedding of the `netctrl` repository (header `src/include/netctrl.hpp`,
CLI drivers `src/unnamed/part_000` and `src/unnamed/part_001`) together with
theorems settling the frozen claims about its specification.

The header holds two variants of the class `netctrl::NetCtrl`:

* the **process blocker** (first part of the header): `blockOutbound` /
  `blockInbound` / `block` / `unblock`, backed by `blockWindows` / `blockLinux`
  / `unblockWindows` / `unblockLinux`, tracking blocked PIDs, a cgroup key and
  two direction flags — embedded in namespace `Netctrl.Blocker`;
* the **lag / packet-loss** variant (second part of the header): `block` /
  `lag` / `disable`, backed by `applyWindows` / `blockLinux` / `applyLinux` /
  `disableWindows` / `disableLinux` — embedded in namespace `Netctrl.Lag`.

External effects (`popen("pgrep ...")`, reading `/proc/<pid>/cgroup`, the
Windows toolhelp snapshot walk, and the exit status of each `system(...)`
call) are modelled by an environment record of oracles.  Every external
command the code hands to `system` / `popen` is logged in a trace, one
constructor per distinct command string shape, carrying exactly the varying
parts the code splices into the string.  `double` values (drop percentages)
are modelled as `ℚ`: the code only stores, compares (`>= 100.0`, `> 0`) and
prints them, it never does arithmetic on them.
-/

namespace Netctrl

/-- The whitespace set `" \t\n\r"` used by the CLI's `trim` calls and by the
header's `find_last_not_of(" \n\r\t")` (same character set). -/
def isTrimChar (c : Char) : Bool :=
  c = ' ' || c = '\t' || c = '\n' || c = '\r'

/-- The `isspace`-style whitespace used by `istringstream` extraction. -/
def isSpaceChar (c : Char) : Bool :=
  c = ' ' || c = '\t' || c = '\n' || c = '\r' || c = Char.ofNat 11 || c = Char.ofNat 12

/-- Embeds `hay.find(needle) != std::string::npos` — substring containment. -/
def strContainsSub (hay needle : String) : Bool :=
  (List.range (hay.data.length + 1)).any (fun i => needle.data.isPrefixOf (hay.data.drop i))

/-- Embeds `s.find_last_of(':')` — index of the last colon, `none` for `npos`. -/
def findLastColon (s : String) : Option Nat :=
  ((List.range s.data.length).filter (fun i => s.data.getD i ' ' = ':')).getLast?

/-- Embeds `s.erase(s.find_last_not_of(" \n\r\t") + 1)` — strip trailing whitespace. -/
def trimTrailWs (s : String) : String :=
  ⟨(s.data.reverse.dropWhile isTrimChar).reverse⟩

/-- The trim performed by the blocker CLI on each input line:
`cmd.erase(0, cmd.find_first_not_of(" \t\n\r")); cmd.erase(cmd.find_last_not_of(" \t\n\r") + 1)`. -/
def strTrim (s : String) : String :=
  ⟨((s.data.dropWhile isTrimChar).reverse.dropWhile isTrimChar).reverse⟩

/-- Embeds `iss >> cmd` on an `istringstream` over the line: skip leading whitespace,
read the maximal run of non-whitespace characters. -/
def firstTok (line : String) : String :=
  ⟨(line.data.dropWhile isSpaceChar).takeWhile (fun c => !(isSpaceChar c))⟩

namespace Blocker

/-- External commands issued by the process-blocker variant.  Each constructor
stands for one `system(...)` command string of `netctrl.hpp`, carrying the
parts the code splices in:

* `netshAdd r d p` — `netsh advfirewall firewall add rule name="r" dir=d action=block program="p"`;
* `netshDel r` — `netsh advfirewall firewall delete rule name="r"`;
* `iptAddCgroup c g` / `iptDelCgroup c g` — `iptables -w -A c -m cgroup --path "g" -j DROP` (`-D` for Del);
* `iptAddPid c p` / `iptDelPid c p` — `iptables -w -A c -m owner --pid-owner p -j DROP` (`-D` for Del). -/
inductive BCmd where
  | netshAdd (ruleName dir exePath : String)
  | netshDel (ruleName : String)
  | iptAddCgroup (chain cgroup : String)
  | iptDelCgroup (chain cgroup : String)
  | iptAddPid (chain : String) (pid : Int)
  | iptDelPid (chain : String) (pid : Int)
  deriving DecidableEq, Repr

/-- The private state of the blocker-variant `NetCtrl` object:
`rule_name_`, `process_name_`, `exe_path_`, `blocked_pids_out_`,
`blocked_pids_in_`, `blocked_cgroup_`, `is_blocked_outbound_`,
`is_blocked_inbound_`.  The two `std::set<int>` members are modelled as
ascending duplicate-free lists. -/
structure BState where
  rule_name : String
  process_name : String
  exe_path : String
  blocked_pids_out : List Int
  blocked_pids_in : List Int
  blocked_cgroup : String
  is_blocked_outbound : Bool
  is_blocked_inbound : Bool
  deriving DecidableEq, Repr

/-- Result of one blocker operation: the C++ return value, the resulting
object state, and the trace of external commands issued during the call. -/
structure BRes where
  ok : Bool
  st : BState
  tr : List BCmd
  deriving DecidableEq, Repr

/-- Oracles for the blocker's interaction with the OS:

* `pgrep p` — the `atoi` of the first output line of `popen("pgrep -x 'p'")`;
  `none` when the pipe fails to open or produces no line;
* `cgroupLine pid` — the first line of `/proc/<pid>/cgroup`; `none` when the
  file cannot be opened or has no line;
* `resolveExe p` — the executable path found by the Windows toolhelp snapshot
  walk for the first process whose name contains `p`; `none` when the
  snapshot fails or no process matches;
* `sysOk c` — whether `system` returned `0` for command `c`. -/
structure BEnv where
  pgrep : String → Option Int
  cgroupLine : Int → Option String
  resolveExe : String → Option String
  sysOk : BCmd → Bool

/-- State of a freshly constructed `NetCtrl(rule_name)` object (the
constructor's one-time iptables chain setup touches no member state). -/
def initB (rule : String) : BState :=
  ⟨rule, "", "", [], [], "", false, false⟩

/-- Embeds `std::set<int>::insert` on the ascending duplicate-free list model. -/
def setInsert (x : Int) : List Int → List Int
  | [] => [x]
  | y :: ys => if x < y then x :: y :: ys else if x = y then y :: ys else y :: setInsert x ys

/-- The iptables chain chosen for a direction. -/
def chainName (inbound : Bool) : String :=
  if inbound then "NETCTRL_IN" else "NETCTRL_OUT"

/-- Embeds `if (inbound) is_blocked_inbound_ = true; else is_blocked_outbound_ = true;` -/
def setFlag (s : BState) (inbound : Bool) : BState :=
  if inbound then { s with is_blocked_inbound := true }
  else { s with is_blocked_outbound := true }

/-- Extraction of the cgroup key from the first line of `/proc/<pid>/cgroup`
in `blockLinux`: only when the line contains `"flatpak"` or `"app-"`, take
the substring after the last `':'` and strip trailing whitespace. -/
def extractCgroup (line : String) : String :=
  if strContainsSub line "flatpak" || strContainsSub line "app-" then
    match findLastColon line with
    | some pos => trimTrailWs ⟨line.data.drop (pos + 1)⟩
    | none => ""
  else ""

/-- The flatpak-check block of `blockLinux`: on the first resolution (both
`blocked_cgroup_` and `process_name_` still empty) read the first line of
`/proc/<pid>/cgroup`, cache the extracted cgroup key (possibly `""`), and
cache the process name; otherwise leave the state alone. -/
def resolveCache (e : BEnv) (s : BState) (proc_name : String) (pid : Int) : BState :=
  if s.blocked_cgroup = "" ∧ s.process_name = "" then
    { s with
      blocked_cgroup :=
        match e.cgroupLine pid with
        | some line => extractCgroup line
        | none => "",
      process_name := proc_name }
  else s

/-- Embeds `NetCtrl::blockLinux(proc_name, inbound)`: resolve the first PID via
`pgrep -x`; run the flatpak-check block (`resolveCache`); then append an
iptables DROP rule by cgroup path if a cgroup key is known, otherwise by PID
owner (recording the PID); set the direction flag on success. -/
def blockLinux (e : BEnv) (s : BState) (proc_name : String) (inbound : Bool) : BRes :=
  match e.pgrep proc_name with
  | none => ⟨false, s, []⟩
  | some pid =>
    if pid > 0 then
      let s1 := resolveCache e s proc_name pid
      if s1.blocked_cgroup ≠ "" then
        let cmd := BCmd.iptAddCgroup (chainName inbound) s1.blocked_cgroup
        if e.sysOk cmd then ⟨true, setFlag s1 inbound, [cmd]⟩
        else ⟨false, s1, [cmd]⟩
      else
        let cmd := BCmd.iptAddPid (chainName inbound) pid
        if e.sysOk cmd then
          let s2 :=
            if inbound then { s1 with blocked_pids_in := setInsert pid s1.blocked_pids_in }
            else { s1 with blocked_pids_out := setInsert pid s1.blocked_pids_out }
          ⟨true, setFlag s2 inbound, [cmd]⟩
        else ⟨false, s1, [cmd]⟩
    else ⟨false, s, []⟩

/-- The snapshot-walk block at the head of `blockWindows`: when `exe_path_`
is still empty, resolve it (failure yields `none`) and cache the process
name; otherwise keep the state as is. -/
def resolveExePath (e : BEnv) (s : BState) (proc_name : String) : Option BState :=
  if s.exe_path = "" then
    match e.resolveExe proc_name with
    | none => none
    | some path => some { s with exe_path := path, process_name := proc_name }
  else some s

/-- Embeds `NetCtrl::blockWindows(proc_name, inbound)`: resolve and cache the
executable path (`resolveExePath`; failure returns `false` with nothing
changed); then run the `netsh ... add rule` command and set the direction
flag on success. -/
def blockWindows (e : BEnv) (s : BState) (proc_name : String) (inbound : Bool) : BRes :=
  match resolveExePath e s proc_name with
  | none => ⟨false, s, []⟩
  | some s1 =>
    let dir := if inbound then "in" else "out"
    let suffix := if inbound then "_in" else "_out"
    let cmd := BCmd.netshAdd (s1.rule_name ++ suffix) dir s1.exe_path
    if e.sysOk cmd then ⟨true, setFlag s1 inbound, [cmd]⟩
    else ⟨false, s1, [cmd]⟩

/-- Embeds `NetCtrl::unblockLinux()`: delete the two cgroup rules when a cgroup key
is recorded, delete one PID-owner rule per recorded PID and direction
(every `system` result is ignored), then clear the cgroup key, both PID sets,
both direction flags and the cached process name, and return `true`. -/
def unblockLinux (_e : BEnv) (s : BState) : BRes :=
  let cgTr :=
    if s.blocked_cgroup ≠ "" then
      [BCmd.iptDelCgroup "NETCTRL_OUT" s.blocked_cgroup,
       BCmd.iptDelCgroup "NETCTRL_IN" s.blocked_cgroup]
    else []
  let outTr := s.blocked_pids_out.map (fun pid => BCmd.iptDelPid "NETCTRL_OUT" pid)
  let inTr := s.blocked_pids_in.map (fun pid => BCmd.iptDelPid "NETCTRL_IN" pid)
  ⟨true,
   { s with blocked_cgroup := "", blocked_pids_out := [], blocked_pids_in := [],
            is_blocked_outbound := false, is_blocked_inbound := false,
            process_name := "" },
   cgTr ++ outTr ++ inTr⟩

/-- Embeds `NetCtrl::unblockWindows()`: always issue the two `netsh ... delete rule`
commands (results ignored), clear both direction flags and `exe_path_`
(`process_name_` is left untouched), and return `true`. -/
def unblockWindows (_e : BEnv) (s : BState) : BRes :=
  ⟨true,
   { s with is_blocked_outbound := false, is_blocked_inbound := false, exe_path := "" },
   [BCmd.netshDel (s.rule_name ++ "_out"), BCmd.netshDel (s.rule_name ++ "_in")]⟩

/-- Embeds `NetCtrl::blockDirection` — the `#ifdef _WIN32` platform dispatch,
with the platform as an explicit flag. -/
def blockDirection (win : Bool) (e : BEnv) (s : BState) (proc_name : String) (inbound : Bool) : BRes :=
  if win then blockWindows e s proc_name inbound else blockLinux e s proc_name inbound

/-- Embeds `NetCtrl::blockOutbound(process_name)`. -/
def blockOutbound (win : Bool) (e : BEnv) (s : BState) (process_name : String) : BRes :=
  blockDirection win e s process_name false

/-- Embeds `NetCtrl::blockInbound(process_name)`. -/
def blockInbound (win : Bool) (e : BEnv) (s : BState) (process_name : String) : BRes :=
  blockDirection win e s process_name true

/-- Embeds `NetCtrl::block(process_name)` — block both directions and `&&` the
results. -/
def block (win : Bool) (e : BEnv) (s : BState) (process_name : String) : BRes :=
  let r1 := blockOutbound win e s process_name
  let r2 := blockInbound win e r1.st process_name
  ⟨r1.ok && r2.ok, r2.st, r1.tr ++ r2.tr⟩

/-- Embeds `NetCtrl::unblock()`: fast path returning `true` with no work when
neither direction flag is set, otherwise the platform teardown. -/
def unblock (win : Bool) (e : BEnv) (s : BState) : BRes :=
  if s.is_blocked_outbound = false ∧ s.is_blocked_inbound = false then ⟨true, s, []⟩
  else if win then unblockWindows e s else unblockLinux e s

/-- Embeds `NetCtrl::isBlocked()`. -/
def isBlocked (s : BState) : Bool :=
  s.is_blocked_outbound || s.is_blocked_inbound

/-- Embeds `NetCtrl::isBlockedOutbound()`. -/
def isBlockedOutbound (s : BState) : Bool := s.is_blocked_outbound

/-- Embeds `NetCtrl::isBlockedInbound()`. -/
def isBlockedInbound (s : BState) : Bool := s.is_blocked_inbound

end Blocker

namespace Lag

/-- External commands issued by the lag / packet-loss variant, one
constructor per `system(...)` call site of the second `NetCtrl` class:

* `tcNetem i d l` — `tc qdisc add dev i root netem` with the optional
  ` delay <d>ms` part (present iff `lag_ms > 0`) and the optional
  ` loss <l>%` part (present iff `drop_percent > 0`), run in the background;
* `tcDel i` — `tc qdisc del dev i root`;
* `iptInsertDropOut` / `iptInsertDropIn` — `iptables -w -I OUTPUT 1 -j DROP`
  and `iptables -w -I INPUT 1 -j DROP`, run in the background;
* `iptDeleteDropBoth` — the single `system` call
  `iptables -w -D OUTPUT -j DROP & iptables -w -D INPUT -j DROP &`;
* `netshAddOut` / `netshAddIn` — the two `netsh ... add rule` calls of
  `applyWindows`; `netshDelOut` / `netshDelIn` — the two
  `netsh ... delete rule` calls of `disableWindows`. -/
inductive LCmd where
  | tcNetem (iface : String) (delay : Option Int) (loss : Option ℚ)
  | tcDel (iface : String)
  | iptInsertDropOut
  | iptInsertDropIn
  | iptDeleteDropBoth
  | netshAddOut
  | netshAddIn
  | netshDelOut
  | netshDelIn
  deriving DecidableEq, Repr

/-- The private state of the lag-variant `NetCtrl` object: `is_active_`,
`current_lag_ms_`, `current_drop_percent_` (a C++ `double`, modelled as `ℚ`)
and `default_iface_`. -/
structure LState where
  is_active : Bool
  current_lag_ms : Int
  current_drop_percent : ℚ
  default_iface : String
  deriving DecidableEq, Repr

/-- Result of one lag-variant operation: C++ return value, resulting state,
trace of external commands issued. -/
structure LRes where
  ok : Bool
  st : LState
  tr : List LCmd
  deriving DecidableEq, Repr

/-- Oracles for the lag variant:

* `sysOk c` — whether `system` returned `0` for command `c` (the Linux paths
  launch their commands in the background and never look at the result);
* `parseLag line` — the result of `iss >> ms >> pct` on the rest of the CLI
  line after the `lag` command token; `none` when extraction fails. -/
structure LEnv where
  sysOk : LCmd → Bool
  parseLag : String → Option (Int × ℚ)

/-- State of a freshly constructed lag-variant `NetCtrl` object; `iface` is
the outcome of the constructor's `findInterface()` probe (`""` when neither
the default-route query nor the common-interface fallback found one). -/
def initL (iface : String) : LState :=
  ⟨false, 0, 0, iface⟩

/-- Embeds `NetCtrl::disableLinux()`: issue `tc qdisc del` for the cached interface
(when one is known) and the combined iptables delete call, all in the
background with results ignored; zero the three state fields; return `true`. -/
def disableLinux (_e : LEnv) (s : LState) : LRes :=
  let t1 := if s.default_iface ≠ "" then [LCmd.tcDel s.default_iface] else []
  ⟨true,
   { s with is_active := false, current_lag_ms := 0, current_drop_percent := 0 },
   t1 ++ [LCmd.iptDeleteDropBoth]⟩

/-- Embeds `NetCtrl::disableWindows()`: issue the two `netsh ... delete rule`
commands (results ignored), zero the three state fields, return `true`. -/
def disableWindows (_e : LEnv) (s : LState) : LRes :=
  ⟨true,
   { s with is_active := false, current_lag_ms := 0, current_drop_percent := 0 },
   [LCmd.netshDelOut, LCmd.netshDelIn]⟩

/-- Embeds `NetCtrl::blockLinux()` (lag variant): clear existing rules via
`disableLinux`, then fire-and-forget the two `iptables -I ... -j DROP`
commands and mark the state active with 100% drop without waiting for or
checking their completion. -/
def blockLinux (e : LEnv) (s : LState) : LRes :=
  let d := disableLinux e s
  ⟨true,
   { d.st with is_active := true, current_lag_ms := 0, current_drop_percent := 100 },
   d.tr ++ [LCmd.iptInsertDropOut, LCmd.iptInsertDropIn]⟩

/-- Embeds `NetCtrl::applyLinux(lag_ms, drop_percent)`: clear existing rules via
`disableLinux`; fail when no interface is known; otherwise fire-and-forget
one `tc qdisc add ... netem` command (delay part iff `lag_ms > 0`, loss part
iff `drop_percent > 0`) and mark the state active with the requested
parameters without waiting for the command. -/
def applyLinux (e : LEnv) (s : LState) (lag_ms : Int) (drop_percent : ℚ) : LRes :=
  let d := disableLinux e s
  if d.st.default_iface = "" then ⟨false, d.st, d.tr⟩
  else
    let cmd := LCmd.tcNetem d.st.default_iface
      (if lag_ms > 0 then some lag_ms else none)
      (if drop_percent > 0 then some drop_percent else none)
    ⟨true,
     { d.st with is_active := true, current_lag_ms := lag_ms,
                 current_drop_percent := drop_percent },
     d.tr ++ [cmd]⟩

/-- Embeds `NetCtrl::applyWindows(drop_percent)`: only a full block is supported —
when `drop_percent >= 100.0`, run both `netsh ... add rule` commands and, if
either exits with `0`, mark active with 100% drop (`current_lag_ms_` is not
touched) and return `true`; in every other case return `false` with the
state unchanged. -/
def applyWindows (e : LEnv) (s : LState) (drop_percent : ℚ) : LRes :=
  if drop_percent ≥ 100 then
    let r1 := e.sysOk LCmd.netshAddOut
    let r2 := e.sysOk LCmd.netshAddIn
    if r1 || r2 then
      ⟨true, { s with is_active := true, current_drop_percent := 100 },
       [LCmd.netshAddOut, LCmd.netshAddIn]⟩
    else ⟨false, s, [LCmd.netshAddOut, LCmd.netshAddIn]⟩
  else ⟨false, s, []⟩

/-- Embeds `NetCtrl::block()` — platform dispatch (`applyWindows(100.0)` on
Windows, `blockLinux()` otherwise). -/
def block (win : Bool) (e : LEnv) (s : LState) : LRes :=
  if win then applyWindows e s 100 else blockLinux e s

/-- Embeds `NetCtrl::lag(lag_ms, drop_percent)` — platform dispatch
(`applyWindows(drop_percent)` on Windows, ignoring `lag_ms`;
`applyLinux(lag_ms, drop_percent)` otherwise). -/
def lag (win : Bool) (e : LEnv) (s : LState) (lag_ms : Int) (drop_percent : ℚ) : LRes :=
  if win then applyWindows e s drop_percent else applyLinux e s lag_ms drop_percent

/-- Embeds `NetCtrl::disable()` — platform dispatch. -/
def disable (win : Bool) (e : LEnv) (s : LState) : LRes :=
  if win then disableWindows e s else disableLinux e s

/-- Embeds `NetCtrl::isActive()`. -/
def isActive (s : LState) : Bool := s.is_active

/-- Embeds `NetCtrl::getLag()`. -/
def getLag (s : LState) : Int := s.current_lag_ms

/-- Embeds `NetCtrl::getDrop()`. -/
def getDrop (s : LState) : ℚ := s.current_drop_percent

/-- The operations of the lag-variant controller's public mutating API. -/
inductive LOp where
  | blockOp
  | lagOp (lag_ms : Int) (drop_percent : ℚ)
  | disableOp
  deriving DecidableEq, Repr

/-- Run one public mutating operation of the lag-variant controller. -/
def applyOp (win : Bool) (e : LEnv) (op : LOp) (s : LState) : LRes :=
  match op with
  | LOp.blockOp => block win e s
  | LOp.lagOp ms dp => lag win e s ms dp
  | LOp.disableOp => disable win e s

/-- The residual-parameter invariant: an inactive controller reports no lag
and no drop. -/
def LagInv (s : LState) : Prop :=
  s.is_active = false → s.current_lag_ms = 0 ∧ s.current_drop_percent = 0

instance (s : LState) : Decidable (LagInv s) := by
  unfold LagInv; infer_instance

end Lag

namespace Blocker

/-- One iteration body of the blocker CLI loop (`src/unnamed/part_001`),
applied to the already-trimmed non-empty command line: returns the new
controller state and whether the loop `break`s (the `quit` branch).  The
guarded branches call the controller only when their status check passes;
`status`, unknown commands and the empty check leave the state alone. -/
def cliStep (win : Bool) (e : BEnv) (target : String) (s : BState) (t : String) : BState × Bool :=
  if t = "block-out" ∨ t = "bo" then
    (if s.is_blocked_outbound then s else (blockOutbound win e s target).st, false)
  else if t = "block-in" ∨ t = "bi" then
    (if s.is_blocked_inbound then s else (blockInbound win e s target).st, false)
  else if t = "block" ∨ t = "b" then
    (if s.is_blocked_outbound && s.is_blocked_inbound then s else (block win e s target).st, false)
  else if t = "unblock" ∨ t = "u" then
    (if isBlocked s = false then s else (unblock win e s).st, false)
  else if t = "status" ∨ t = "s" then (s, false)
  else if t = "quit" ∨ t = "q" ∨ t = "exit" then (s, true)
  else (s, false)

/-- The blocker CLI `while` loop over the remaining input lines: each line is
trimmed, empty lines `continue`, the `quit` branch (or end of input) leaves
the loop.  Returns the controller state at loop exit. -/
def cliLoop (win : Bool) (e : BEnv) (target : String) : BState → List String → BState
  | s, [] => s
  | s, line :: rest =>
    let t := strTrim line
    if t = "" then cliLoop win e target s rest
    else
      let r := cliStep win e target s t
      if r.2 then r.1 else cliLoop win e target r.1 rest

/-- The state of the blocker CLI's controller after a full graceful run of
`main` with the admin check passed: the command loop, then the explicit
`ctrl.unblock()` before `return 0`, then the destructor's `unblock()`. -/
def session (win : Bool) (e : BEnv) (target : String) (input : List String) : BState :=
  let sEnd := cliLoop win e target (initB "netctrl") input
  let s1 := (unblock win e sEnd).st
  (unblock win e s1).st

/-- The state of the blocker CLI's controller after an abnormal termination:
the loop has processed `input` lines when the signal arrives, and the
`cleanup` handler runs `g_ctrl->unblock()` once and calls `exit(0)` (so the
destructor does not run). -/
def sessionAborted (win : Bool) (e : BEnv) (target : String) (input : List String) : BState :=
  (unblock win e (cliLoop win e target (initB "netctrl") input)).st

/-- Embeds `main` of the blocker CLI (`src/unnamed/part_001`): exit code `1` when
the startup `isAdmin()` check fails (before any controller exists), else the
interactive loop followed by teardown and exit code `0` (both the `quit`
command and end of input leave the loop and reach `return 0`). -/
def mainBlocker (win : Bool) (e : BEnv) (admin : Bool) (target : String)
    (input : List String) : Nat × Option BState :=
  if admin then (0, some (session win e target input)) else (1, none)

end Blocker

namespace Lag

/-- One iteration body of the lag CLI loop (`src/unnamed/part_000`), applied
to one input line: first token selects the command; `lag` additionally
parses `<ms> <pct>` from the line (failure prints usage and changes
nothing); returns the new state and whether the loop `break`s. -/
def cliStep (win : Bool) (e : LEnv) (s : LState) (line : String) : LState × Bool :=
  let cmd := firstTok line
  if cmd = "block" ∨ cmd = "b" then ((block win e s).st, false)
  else if cmd = "lag" ∨ cmd = "l" then
    match e.parseLag line with
    | some (ms, pct) => ((lag win e s ms pct).st, false)
    | none => (s, false)
  else if cmd = "off" ∨ cmd = "disable" ∨ cmd = "d" then ((disable win e s).st, false)
  else if cmd = "status" ∨ cmd = "s" then (s, false)
  else if cmd = "quit" ∨ cmd = "q" then (s, true)
  else (s, false)

/-- The lag CLI `while` loop over the remaining input lines. -/
def cliLoop (win : Bool) (e : LEnv) : LState → List String → LState
  | s, [] => s
  | s, line :: rest =>
    let r := cliStep win e s line
    if r.2 then r.1 else cliLoop win e r.1 rest

/-- The state of the lag CLI's controller after a full graceful run of
`main` with the admin check passed: the command loop, the explicit
`ctrl.disable()` before `return 0`, then the destructor's `disable()`. -/
def session (win : Bool) (e : LEnv) (iface : String) (input : List String) : LState :=
  let sEnd := cliLoop win e (initL iface) input
  let s1 := (disable win e sEnd).st
  (disable win e s1).st

/-- Embeds `main` of the lag CLI (`src/unnamed/part_000`): exit code `1` when the
startup `isAdmin()` check fails, else the interactive loop followed by
teardown and exit code `0` (both `quit` and end of input leave the loop). -/
def mainLag (win : Bool) (e : LEnv) (admin : Bool) (iface : String)
    (input : List String) : Nat × Option LState :=
  if admin then (0, some (session win e iface input)) else (1, none)

end Lag

/-! ## Concrete environments used to instantiate the theorems -/

/-- A Linux environment where `pgrep` resolves every name to PID `7`, the
process is not a flatpak one, and every external command succeeds. -/
def envPidOk : Blocker.BEnv :=
  ⟨fun _ => some 7, fun _ => none, fun _ => some "C:/app.exe", fun _ => true⟩

/-- A Linux environment where `pgrep` resolves to PID `5` (not flatpak) but
every external command fails. -/
def envPidFail : Blocker.BEnv :=
  ⟨fun _ => some 5, fun _ => none, fun _ => none, fun _ => false⟩

/-- A Linux environment where `pgrep` resolves to PID `5`, the cgroup file
reports the flatpak-style line `0::app-x`, and every external command fails. -/
def envCgFail : Blocker.BEnv :=
  ⟨fun _ => some 5, fun _ => some "0::app-x", fun _ => none, fun _ => false⟩

/-- A Windows environment where the snapshot walk resolves every name to
`C:/app.exe` and every external command succeeds. -/
def envWinOk : Blocker.BEnv :=
  ⟨fun _ => none, fun _ => none, fun _ => some "C:/app.exe", fun _ => true⟩

/-- A lag-variant environment where every external command succeeds. -/
def envLagAll : Lag.LEnv := ⟨fun _ => true, fun _ => none⟩

/-- A blocker state with one recorded outbound PID, two recorded inbound
PIDs, a recorded cgroup key and both direction flags set. -/
def sLedger : Blocker.BState := ⟨"netctrl", "p", "", [5], [5, 7], "g", true, true⟩

/-- Bookkeeping invariant of the blocker controller on a fixed platform:
a cleared direction flag means the matching PID set is empty (PIDs are only
recorded by the success path that also sets the flag, and `unblockLinux`
clears both together), and on Windows the PID sets are never populated. -/
def BInv (win : Bool) (s : Blocker.BState) : Prop :=
  (s.is_blocked_outbound = false → s.blocked_pids_out = []) ∧
  (s.is_blocked_inbound = false → s.blocked_pids_in = []) ∧
  (win = true → s.blocked_pids_out = [] ∧ s.blocked_pids_in = [])

/-! ## Helper lemmas -/

/-- Running `unblock` on a state with neither direction flag set takes the fast path:
it returns `true`, changes nothing and issues no command. -/
theorem unblock_noop (win : Bool) (e : Blocker.BEnv) (s : Blocker.BState)
    (hout : s.is_blocked_outbound = false) (hin : s.is_blocked_inbound = false) :
    Blocker.unblock win e s = ⟨true, s, []⟩ := by
  unfold Blocker.unblock
  rw [if_pos ⟨hout, hin⟩]

/-- The flatpak-check block touches only the cached cgroup key and process
name, never the ledger part of the state. -/
theorem resolveCache_pres (e : Blocker.BEnv) (s : Blocker.BState) (p : String) (pid : Int) :
    (Blocker.resolveCache e s p pid).blocked_pids_out = s.blocked_pids_out ∧
    (Blocker.resolveCache e s p pid).blocked_pids_in = s.blocked_pids_in ∧
    (Blocker.resolveCache e s p pid).is_blocked_outbound = s.is_blocked_outbound ∧
    (Blocker.resolveCache e s p pid).is_blocked_inbound = s.is_blocked_inbound := by
  unfold Blocker.resolveCache
  split <;> simp

/-- The snapshot-walk block touches only the cached executable path and
process name, never the ledger part of the state. -/
theorem resolveExePath_pres (e : Blocker.BEnv) (s : Blocker.BState) (p : String)
    (s1 : Blocker.BState) (h : Blocker.resolveExePath e s p = some s1) :
    s1.blocked_pids_out = s.blocked_pids_out ∧
    s1.blocked_pids_in = s.blocked_pids_in ∧
    s1.is_blocked_outbound = s.is_blocked_outbound ∧
    s1.is_blocked_inbound = s.is_blocked_inbound := by
  unfold Blocker.resolveExePath at h
  split at h
  · split at h
    · exact absurd h (by simp)
    · cases h
      simp
  · cases h
    simp

/-- Invariant `BInv` holds of a freshly constructed controller. -/
theorem binv_init (win : Bool) (rule : String) : BInv win (Blocker.initB rule) :=
  ⟨fun _ => rfl, fun _ => rfl, fun _ => ⟨rfl, rfl⟩⟩

/-- Invariant `BInv` is preserved by `blockLinux`. -/
theorem binv_blockLinux (e : Blocker.BEnv) (s : Blocker.BState) (p : String) (inb : Bool)
    (h : BInv false s) : BInv false (Blocker.blockLinux e s p inb).st := by
  obtain ⟨h1, h2, h3⟩ := h
  unfold BInv
  simp only [Blocker.blockLinux]
  rcases hpg : e.pgrep p with _ | pid <;> simp only [hpg]
  · exact ⟨h1, h2, by simp⟩
  · by_cases hpid : pid > 0
    · rw [if_pos hpid]
      obtain ⟨a, b, c, d⟩ := resolveCache_pres e s p pid
      split
      · split <;> cases inb <;> simp_all [Blocker.setFlag]
      · split <;> cases inb <;> simp_all [Blocker.setFlag]
    · rw [if_neg hpid]
      exact ⟨h1, h2, by simp⟩

/-- Invariant `BInv` is preserved by `blockWindows`. -/
theorem binv_blockWindows (e : Blocker.BEnv) (s : Blocker.BState) (p : String) (inb : Bool)
    (h : BInv true s) : BInv true (Blocker.blockWindows e s p inb).st := by
  obtain ⟨h1, h2, h3⟩ := h
  obtain ⟨hpo, hpi⟩ := h3 rfl
  unfold BInv
  simp only [Blocker.blockWindows]
  rcases hre : Blocker.resolveExePath e s p with _ | s1 <;> simp only [hre]
  · exact ⟨h1, h2, fun _ => ⟨hpo, hpi⟩⟩
  · obtain ⟨a, b, c, d⟩ := resolveExePath_pres e s p s1 hre
    cases inb <;> repeat' split
    all_goals simp_all [Blocker.setFlag]

/-- Invariant `BInv` is preserved by `blockDirection`. -/
theorem binv_blockDirection (win : Bool) (e : Blocker.BEnv) (s : Blocker.BState)
    (p : String) (inb : Bool) (h : BInv win s) :
    BInv win (Blocker.blockDirection win e s p inb).st := by
  cases win
  · simpa [Blocker.blockDirection] using binv_blockLinux e s p inb h
  · simpa [Blocker.blockDirection] using binv_blockWindows e s p inb h

/-- Invariant `BInv` is preserved by `block` (both directions). -/
theorem binv_block (win : Bool) (e : Blocker.BEnv) (s : Blocker.BState) (p : String)
    (h : BInv win s) : BInv win (Blocker.block win e s p).st := by
  unfold Blocker.block Blocker.blockOutbound Blocker.blockInbound
  exact binv_blockDirection win e _ p true (binv_blockDirection win e s p false h)

/-- Running `unblock` on a state satisfying `BInv` clears both flags and both PID
sets (on the fast path they were already clear). -/
theorem unblock_clears (win : Bool) (e : Blocker.BEnv) (s : Blocker.BState) (h : BInv win s) :
    (Blocker.unblock win e s).st.is_blocked_outbound = false ∧
    (Blocker.unblock win e s).st.is_blocked_inbound = false ∧
    (Blocker.unblock win e s).st.blocked_pids_out = [] ∧
    (Blocker.unblock win e s).st.blocked_pids_in = [] := by
  obtain ⟨h1, h2, h3⟩ := h
  unfold Blocker.unblock
  split
  · rename_i hflags
    obtain ⟨ho, hi⟩ := hflags
    exact ⟨ho, hi, h1 ho, h2 hi⟩
  · cases win
    · simp [Blocker.unblockLinux]
    · simp [Blocker.unblockWindows, h3 rfl]

/-- Invariant `BInv` is preserved by `unblock`. -/
theorem binv_unblock (win : Bool) (e : Blocker.BEnv) (s : Blocker.BState)
    (h : BInv win s) : BInv win (Blocker.unblock win e s).st := by
  obtain ⟨ho, hi, po, pi⟩ := unblock_clears win e s h
  exact ⟨fun _ => po, fun _ => pi, fun _ => ⟨po, pi⟩⟩

/-- Invariant `BInv` is preserved by one blocker CLI dispatch step. -/
theorem binv_cliStep (win : Bool) (e : Blocker.BEnv) (target : String) (s : Blocker.BState)
    (t : String) (h : BInv win s) : BInv win (Blocker.cliStep win e target s t).1 := by
  unfold Blocker.cliStep
  repeat' split
  all_goals
    first
      | exact h
      | exact binv_blockDirection win e s target false h
      | exact binv_blockDirection win e s target true h
      | exact binv_block win e s target h
      | exact binv_unblock win e s h

/-- Invariant `BInv` is preserved by the blocker CLI loop. -/
theorem binv_cliLoop (win : Bool) (e : Blocker.BEnv) (target : String) :
    ∀ (input : List String) (s : Blocker.BState), BInv win s →
      BInv win (Blocker.cliLoop win e target s input) := by
  intro input
  induction input with
  | nil => exact fun s h => h
  | cons line rest ih =>
    intro s h
    simp only [Blocker.cliLoop]
    split
    · exact ih s h
    · split
      · exact binv_cliStep win e target s (strTrim line) h
      · exact ih _ (binv_cliStep win e target s (strTrim line) h)

/-! ## Claim theorems -/

/-- C5: `revokeAll` (`unblock` in the blocker variant, `disable` in the lag
variant, together with their platform bodies) never raises a fatal error:
for every starting state and every environment — in particular no matter
which external undo commands fail — it completes and returns `true`. -/
theorem c5_revokeAll_never_fatal :
    (∀ win e s, (Blocker.unblock win e s).ok = true) ∧
    (∀ e s, (Blocker.unblockLinux e s).ok = true) ∧
    (∀ e s, (Blocker.unblockWindows e s).ok = true) ∧
    (∀ win e s, (Lag.disable win e s).ok = true) ∧
    (∀ e s, (Lag.disableLinux e s).ok = true) ∧
    (∀ e s, (Lag.disableWindows e s).ok = true) := by
  refine ⟨?_, fun e s => rfl, fun e s => rfl, ?_, fun e s => rfl, fun e s => rfl⟩
  · intro win e s
    unfold Blocker.unblock
    split
    · rfl
    · split <;> rfl
  · intro win e s
    unfold Lag.disable
    split <;> rfl

/-- C6: both CLI main loops exit with code `0` on a graceful quit (the quit
command or end of input) and with code `1` when the startup `isAdmin` check
fails, for every input sequence and environment. -/
theorem c6_exit_codes :
    (∀ win e admin target input,
      (Blocker.mainBlocker win e admin target input).1 = if admin then 0 else 1) ∧
    (∀ win e admin iface input,
      (Lag.mainLag win e admin iface input).1 = if admin then 0 else 1) := by
  constructor
  · intro win e admin target input
    cases admin <;> simp [Blocker.mainBlocker]
  · intro win e admin iface input
    cases admin <;> simp [Lag.mainLag]

/-- C2 counterexample: on Windows, after exactly one successful apply
(N = 1), `revokeAll` (`unblockWindows`) attempts two undo actions — it
always deletes both direction rules — not one. -/
theorem c2_counterexample :
    (Blocker.blockWindows envWinOk (Blocker.initB "netctrl") "procA" false).ok = true ∧
    (Blocker.unblockWindows envWinOk
      (Blocker.blockWindows envWinOk (Blocker.initB "netctrl") "procA" false).st).tr.length
      ≠ 1 ∧
    (Blocker.unblockWindows envWinOk
      (Blocker.blockWindows envWinOk (Blocker.initB "netctrl") "procA" false).st).tr
      = [Blocker.BCmd.netshDel "netctrl_out", Blocker.BCmd.netshDel "netctrl_in"] := by
  decide

/-- Injectivity of the PID-delete command in the PID, per chain. -/
theorem iptDelPid_injective (chain : String) :
    Function.Injective (fun pid : Int => Blocker.BCmd.iptDelPid chain pid) := by
  intro a b hab
  simpa using hab

/-- C2 amended: `revokeAll` attempts one undo action per recorded ledger
entry rather than one per successful apply: `unblockLinux` issues exactly
one delete per recorded PID per direction plus, when a cgroup key is
recorded, one delete per chain (two commands for the single key), each
attempted exactly once and independently of every undo outcome (the
environment is arbitrary and its results are ignored), and it afterwards
leaves the ledger empty — PID sets, cgroup key and both direction flags
cleared; `unblockWindows` always issues exactly its two rule deletions and
clears both flags. -/
theorem c2_revoke_per_entry (e : Blocker.BEnv) (s : Blocker.BState)
    (hout : s.blocked_pids_out.Nodup) (hin : s.blocked_pids_in.Nodup) :
    (Blocker.unblockLinux e s).ok = true ∧
    (Blocker.unblockLinux e s).tr.length =
      (if s.blocked_cgroup = "" then 0 else 2)
        + s.blocked_pids_out.length + s.blocked_pids_in.length ∧
    (∀ pid ∈ s.blocked_pids_out,
      (Blocker.unblockLinux e s).tr.count (Blocker.BCmd.iptDelPid "NETCTRL_OUT" pid) = 1) ∧
    (∀ pid ∈ s.blocked_pids_in,
      (Blocker.unblockLinux e s).tr.count (Blocker.BCmd.iptDelPid "NETCTRL_IN" pid) = 1) ∧
    (s.blocked_cgroup ≠ "" →
      (Blocker.unblockLinux e s).tr.count
        (Blocker.BCmd.iptDelCgroup "NETCTRL_OUT" s.blocked_cgroup) = 1 ∧
      (Blocker.unblockLinux e s).tr.count
        (Blocker.BCmd.iptDelCgroup "NETCTRL_IN" s.blocked_cgroup) = 1) ∧
    (Blocker.unblockLinux e s).st.blocked_pids_out = [] ∧
    (Blocker.unblockLinux e s).st.blocked_pids_in = [] ∧
    (Blocker.unblockLinux e s).st.blocked_cgroup = "" ∧
    (Blocker.unblockLinux e s).st.is_blocked_outbound = false ∧
    (Blocker.unblockLinux e s).st.is_blocked_inbound = false ∧
    (Blocker.unblockWindows e s).ok = true ∧
    (Blocker.unblockWindows e s).tr.length = 2 ∧
    (Blocker.unblockWindows e s).st.is_blocked_outbound = false ∧
    (Blocker.unblockWindows e s).st.is_blocked_inbound = false := by
  unfold Blocker.unblockLinux Blocker.unblockWindows
  refine ⟨rfl, ?_, ?_, ?_, ?_, rfl, rfl, rfl, rfl, rfl, rfl, rfl, rfl, rfl⟩
  · by_cases hcg : s.blocked_cgroup = ""
    · simp [hcg]
    · simp [hcg]
      omega
  · intro pid hmem
    simp only [List.count_append]
    have h1 : (if s.blocked_cgroup ≠ "" then
        [Blocker.BCmd.iptDelCgroup "NETCTRL_OUT" s.blocked_cgroup,
         Blocker.BCmd.iptDelCgroup "NETCTRL_IN" s.blocked_cgroup]
      else []).count (Blocker.BCmd.iptDelPid "NETCTRL_OUT" pid) = 0 := by
      rw [List.count_eq_zero]
      split <;> simp
    have h2 : (s.blocked_pids_out.map
          (fun pid => Blocker.BCmd.iptDelPid "NETCTRL_OUT" pid)).count
        (Blocker.BCmd.iptDelPid "NETCTRL_OUT" pid) = 1 := by
      have := List.count_map_of_injective s.blocked_pids_out
        (fun pid : Int => Blocker.BCmd.iptDelPid "NETCTRL_OUT" pid)
        (iptDelPid_injective "NETCTRL_OUT") pid
      rw [this, List.count_eq_one_of_mem hout hmem]
    have h3 : (s.blocked_pids_in.map
          (fun pid => Blocker.BCmd.iptDelPid "NETCTRL_IN" pid)).count
        (Blocker.BCmd.iptDelPid "NETCTRL_OUT" pid) = 0 := by
      rw [List.count_eq_zero]
      simp
    rw [h1, h2, h3]
  · intro pid hmem
    simp only [List.count_append]
    have h1 : (if s.blocked_cgroup ≠ "" then
        [Blocker.BCmd.iptDelCgroup "NETCTRL_OUT" s.blocked_cgroup,
         Blocker.BCmd.iptDelCgroup "NETCTRL_IN" s.blocked_cgroup]
      else []).count (Blocker.BCmd.iptDelPid "NETCTRL_IN" pid) = 0 := by
      rw [List.count_eq_zero]
      split <;> simp
    have h2 : (s.blocked_pids_out.map
          (fun pid => Blocker.BCmd.iptDelPid "NETCTRL_OUT" pid)).count
        (Blocker.BCmd.iptDelPid "NETCTRL_IN" pid) = 0 := by
      rw [List.count_eq_zero]
      simp
    have h3 : (s.blocked_pids_in.map
          (fun pid => Blocker.BCmd.iptDelPid "NETCTRL_IN" pid)).count
        (Blocker.BCmd.iptDelPid "NETCTRL_IN" pid) = 1 := by
      have := List.count_map_of_injective s.blocked_pids_in
        (fun pid : Int => Blocker.BCmd.iptDelPid "NETCTRL_IN" pid)
        (iptDelPid_injective "NETCTRL_IN") pid
      rw [this, List.count_eq_one_of_mem hin hmem]
    rw [h1, h2, h3]
  · intro hcg
    have hA : (s.blocked_pids_out.map
          (fun pid => Blocker.BCmd.iptDelPid "NETCTRL_OUT" pid)).count
        (Blocker.BCmd.iptDelCgroup "NETCTRL_OUT" s.blocked_cgroup) = 0 := by
      rw [List.count_eq_zero]
      simp
    have hB : (s.blocked_pids_in.map
          (fun pid => Blocker.BCmd.iptDelPid "NETCTRL_IN" pid)).count
        (Blocker.BCmd.iptDelCgroup "NETCTRL_OUT" s.blocked_cgroup) = 0 := by
      rw [List.count_eq_zero]
      simp
    have hC : (s.blocked_pids_out.map
          (fun pid => Blocker.BCmd.iptDelPid "NETCTRL_OUT" pid)).count
        (Blocker.BCmd.iptDelCgroup "NETCTRL_IN" s.blocked_cgroup) = 0 := by
      rw [List.count_eq_zero]
      simp
    have hD : (s.blocked_pids_in.map
          (fun pid => Blocker.BCmd.iptDelPid "NETCTRL_IN" pid)).count
        (Blocker.BCmd.iptDelCgroup "NETCTRL_IN" s.blocked_cgroup) = 0 := by
      rw [List.count_eq_zero]
      simp
    constructor
    · simp only [List.count_append, if_pos hcg]
      rw [hA, hB]
      simp
    · simp only [List.count_append, if_pos hcg]
      rw [hC, hD]
      simp

/-- C2 witness: the amended statement at a concrete ledger holding one
outbound PID, two inbound PIDs and a cgroup key. -/
theorem c2_witness :
    sLedger.blocked_pids_out.Nodup ∧ sLedger.blocked_pids_in.Nodup ∧
    (Blocker.unblockLinux envPidOk sLedger).ok = true ∧
    (Blocker.unblockLinux envPidOk sLedger).tr.length =
      (if sLedger.blocked_cgroup = "" then 0 else 2)
        + sLedger.blocked_pids_out.length + sLedger.blocked_pids_in.length :=
  ⟨by decide, by decide,
   (c2_revoke_per_entry envPidOk sLedger (by decide) (by decide)).1,
   (c2_revoke_per_entry envPidOk sLedger (by decide) (by decide)).2.1⟩

/-- C3 counterexample: in the lag variant, calling `disable` (its Linux body
`disableLinux`) on the freshly constructed — hence inactive — controller is
not a no-op: it still issues the `tc qdisc del` and iptables delete
commands, so the number of undo actions invoked is not zero. -/
theorem c3_counterexample :
    Lag.isActive (Lag.initL "eth0") = false ∧
    (Lag.disableLinux envLagAll (Lag.initL "eth0")).tr
      = [Lag.LCmd.tcDel "eth0", Lag.LCmd.iptDeleteDropBoth] ∧
    (Lag.disableLinux envLagAll (Lag.initL "eth0")).tr ≠ [] := by decide

/-- C3 amended: `unblock` in the blocker variant on an empty ledger is a
genuine no-op (returns `true`, leaves the state unchanged, issues zero undo
commands); `disable` in the lag variant on an inactive controller returns
`true` and leaves the (already zeroed) state unchanged, but still
unconditionally issues its undo commands. -/
theorem c3_empty_revoke_amended :
    (∀ win e s, s.is_blocked_outbound = false → s.is_blocked_inbound = false →
      Blocker.unblock win e s = ⟨true, s, []⟩) ∧
    (∀ e s, Lag.isActive s = false → Lag.getLag s = 0 → Lag.getDrop s = 0 →
      (Lag.disableLinux e s).ok = true ∧ (Lag.disableLinux e s).st = s ∧
      (Lag.disableLinux e s).tr ≠ []) ∧
    (∀ e s, Lag.isActive s = false → Lag.getLag s = 0 → Lag.getDrop s = 0 →
      (Lag.disableWindows e s).ok = true ∧ (Lag.disableWindows e s).st = s ∧
      (Lag.disableWindows e s).tr ≠ []) := by
  refine ⟨fun win e s hout hin => unblock_noop win e s hout hin, ?_, ?_⟩
  · intro e s h1 h2 h3
    refine ⟨rfl, ?_, ?_⟩
    · cases s
      simp_all [Lag.disableLinux, Lag.isActive, Lag.getLag, Lag.getDrop]
    · simp [Lag.disableLinux]
  · intro e s h1 h2 h3
    refine ⟨rfl, ?_, ?_⟩
    · cases s
      simp_all [Lag.disableWindows, Lag.isActive, Lag.getLag, Lag.getDrop]
    · simp [Lag.disableWindows]

/-- C3 witness: the amended statement applied to the freshly constructed
controllers of both variants. -/
theorem c3_witness :
    ((Blocker.initB "netctrl").is_blocked_outbound = false ∧
     (Blocker.initB "netctrl").is_blocked_inbound = false ∧
     Blocker.unblock false envPidOk (Blocker.initB "netctrl")
       = ⟨true, Blocker.initB "netctrl", []⟩) ∧
    (Lag.isActive (Lag.initL "eth0") = false ∧
     (Lag.disableLinux envLagAll (Lag.initL "eth0")).st = Lag.initL "eth0") :=
  ⟨⟨rfl, rfl, c3_empty_revoke_amended.1 false envPidOk (Blocker.initB "netctrl") rfl rfl⟩,
   ⟨rfl, (c3_empty_revoke_amended.2.1 envLagAll (Lag.initL "eth0") rfl rfl rfl).2.1⟩⟩

/-- C10: in the lag variant on Windows, `lag(lag_ms, drop_percent)` with
`drop_percent < 100.0` returns `false`, leaves the controller state
unchanged (so `isActive`, `getLag` and `getDrop` keep their prior values)
and issues no external command: only a full 100% block is ever applied. -/
theorem c10_lag_windows_below_100 (e : Lag.LEnv) (s : Lag.LState) (ms : Int) (dp : ℚ)
    (h : dp < 100) :
    Lag.lag true e s ms dp = ⟨false, s, []⟩ := by
  unfold Lag.lag Lag.applyWindows
  simp [not_le.mpr h]

/-- C10 witness: `lag 5 50` on Windows fails and changes nothing. -/
theorem c10_witness :
    (50 : ℚ) < 100 ∧
    Lag.lag true envLagAll (Lag.initL "eth0") 5 50 = ⟨false, Lag.initL "eth0", []⟩ :=
  ⟨by decide, c10_lag_windows_below_100 envLagAll (Lag.initL "eth0") 5 50 (by decide)⟩

/-- C9: the residual-parameter invariant of the lag variant — whenever
`isActive()` is false, `getLag()` is `0` and `getDrop()` is `0` — holds of
the freshly constructed controller and is preserved by every public
mutating operation (`block`, `lag`, `disable`) on either platform; the
queries do not change state. -/
theorem c9_inactive_zero_invariant :
    (∀ iface, Lag.LagInv (Lag.initL iface)) ∧
    (∀ win e op s, Lag.LagInv s → Lag.LagInv (Lag.applyOp win e op s).st) := by
  constructor
  · intro iface _
    exact ⟨rfl, rfl⟩
  · intro win e op s h
    unfold Lag.LagInv at h ⊢
    cases op <;> cases win <;>
      simp only [Lag.applyOp, Lag.block, Lag.lag, Lag.disable, Lag.blockLinux,
        Lag.applyLinux, Lag.applyWindows, Lag.disableLinux, Lag.disableWindows,
        Bool.false_eq_true, if_false, if_true] <;>
      (try split) <;> (try split) <;> simp_all

/-- C9 witness: the invariant holds initially and after a concrete `lag`
operation. -/
theorem c9_witness :
    Lag.LagInv (Lag.initL "eth0") ∧
    Lag.LagInv (Lag.applyOp false envLagAll (Lag.LOp.lagOp 5 50) (Lag.initL "eth0")).st :=
  ⟨c9_inactive_zero_invariant.1 "eth0",
   c9_inactive_zero_invariant.2 false envLagAll (Lag.LOp.lagOp 5 50) (Lag.initL "eth0")
     (by decide)⟩

/-- C7 counterexample: a run of the blocker CLI in which a flatpak-style
process is resolved but the apply command fails, followed by `quit`, leaves
the cached cgroup key (and process name) recorded after full teardown (the
explicit `unblock()` plus the destructor's): `unblock`'s fast path skips
`unblockLinux` because no direction flag is set, so the ledger's cgroup key
is never cleared — even though no restriction is recorded as active. -/
theorem c7_counterexample :
    (Blocker.session false envCgFail "p" ["bo", "q"]).blocked_cgroup = "app-x" ∧
    (Blocker.session false envCgFail "p" ["bo", "q"]).blocked_cgroup ≠ "" ∧
    (Blocker.session false envCgFail "p" ["bo", "q"]).process_name = "p" ∧
    (Blocker.session false envCgFail "p" ["bo", "q"]).is_blocked_outbound = false ∧
    (Blocker.session false envCgFail "p" ["bo", "q"]).is_blocked_inbound = false := by
  decide

/-- C7 amended: on every exit path of the blocker CLI — graceful quit or end
of input (explicit `unblock()` then destructor) as well as the
termination-signal handler (`cleanup`'s single `unblock()` after any prefix
of the input) — teardown leaves no restriction recorded as active: both
direction flags are `false` and both PID sets are empty.  However,
`unblock()` returns early when no direction flag is set, so a cgroup key
(and process name) cached by a failed apply can survive teardown; with the
ledger read as in C2 (PID sets, cgroup key, direction flags), the ledger is
then not empty. -/
theorem c7_teardown_amended (win : Bool) (e : Blocker.BEnv) (target : String)
    (input : List String) :
    ((Blocker.session win e target input).is_blocked_outbound = false ∧
     (Blocker.session win e target input).is_blocked_inbound = false ∧
     (Blocker.session win e target input).blocked_pids_out = [] ∧
     (Blocker.session win e target input).blocked_pids_in = []) ∧
    ((Blocker.sessionAborted win e target input).is_blocked_outbound = false ∧
     (Blocker.sessionAborted win e target input).is_blocked_inbound = false ∧
     (Blocker.sessionAborted win e target input).blocked_pids_out = [] ∧
     (Blocker.sessionAborted win e target input).blocked_pids_in = []) := by
  have hloop := binv_cliLoop win e target input (Blocker.initB "netctrl")
    (binv_init win "netctrl")
  constructor
  · obtain ⟨ho, hi, po, pi⟩ := unblock_clears win e
      (Blocker.cliLoop win e target (Blocker.initB "netctrl") input) hloop
    simp only [Blocker.session]
    rw [unblock_noop win e
      (Blocker.unblock win e (Blocker.cliLoop win e target (Blocker.initB "netctrl") input)).st
      ho hi]
    exact ⟨ho, hi, po, pi⟩
  · exact unblock_clears win e
      (Blocker.cliLoop win e target (Blocker.initB "netctrl") input) hloop

/-- C8: fire-and-forget applies are recorded optimistically.  The lag
variant's Linux `block` marks the controller active with 100% drop no matter
what the backgrounded iptables commands do, and `applyLinux` (when an
interface is known) marks it active and stores the requested lag/drop
parameters no matter what the backgrounded `tc` command does; a later
`disableLinux` then issues the corresponding undo commands. -/
theorem c8_fire_and_forget_optimistic :
    (∀ e s, (Lag.blockLinux e s).ok = true ∧
      Lag.isActive (Lag.blockLinux e s).st = true ∧
      Lag.getLag (Lag.blockLinux e s).st = 0 ∧
      Lag.getDrop (Lag.blockLinux e s).st = 100 ∧
      Lag.LCmd.iptDeleteDropBoth ∈ (Lag.disableLinux e (Lag.blockLinux e s).st).tr) ∧
    (∀ e s ms dp, s.default_iface ≠ "" →
      (Lag.applyLinux e s ms dp).ok = true ∧
      Lag.isActive (Lag.applyLinux e s ms dp).st = true ∧
      Lag.getLag (Lag.applyLinux e s ms dp).st = ms ∧
      Lag.getDrop (Lag.applyLinux e s ms dp).st = dp ∧
      (Lag.disableLinux e (Lag.applyLinux e s ms dp).st).tr
        = [Lag.LCmd.tcDel s.default_iface, Lag.LCmd.iptDeleteDropBoth]) := by
  constructor
  · intro e s
    refine ⟨rfl, rfl, rfl, rfl, ?_⟩
    simp [Lag.disableLinux, Lag.blockLinux]
  · intro e s ms dp h
    unfold Lag.applyLinux Lag.disableLinux
    simp only [h, ite_false, if_neg]
    refine ⟨?_, ?_, ?_, ?_, ?_⟩ <;> simp [Lag.isActive, Lag.getLag, Lag.getDrop, h]

/-- C1 counterexample: with a resolvable process (PID 7, not flatpak) and
every external command succeeding, the second of two successive
`blockOutbound` calls does not return without re-invoking the underlying
apply action: it issues the `iptables -A ... --pid-owner 7` add command
again (its trace is the same singleton as the first call's), and the `bool`
API reports plain success both times — there is no `alreadyActive` result. -/
theorem c1_counterexample :
    (Blocker.blockLinux envPidOk (Blocker.initB "netctrl") "procA" false).ok = true ∧
    (Blocker.blockLinux envPidOk
      (Blocker.blockLinux envPidOk (Blocker.initB "netctrl") "procA" false).st
      "procA" false).ok = true ∧
    (Blocker.blockLinux envPidOk
      (Blocker.blockLinux envPidOk (Blocker.initB "netctrl") "procA" false).st
      "procA" false).tr = [Blocker.BCmd.iptAddPid "NETCTRL_OUT" 7] := by decide

/-- C1 amended: for a resolvable non-flatpak process whose add command
succeeds, two successive apply calls for the same direction both return
`true` (the `bool` API cannot express `alreadyActive`), the second call
re-invokes the external apply command, and the ledger still holds exactly
one entry for the pair — the PID set deduplicates and the direction flag is
simply set again.  (The CLI layer separately avoids the second call by
checking `isBlocked*` first.) -/
theorem c1_apply_twice_amended (e : Blocker.BEnv) (rule p : String) (pid : Int) (inb : Bool)
    (h1 : e.pgrep p = some pid) (h2 : 0 < pid) (h3 : e.cgroupLine pid = none)
    (h4 : e.sysOk (Blocker.BCmd.iptAddPid (Blocker.chainName inb) pid) = true) :
    (Blocker.blockLinux e (Blocker.initB rule) p inb).ok = true ∧
    (Blocker.blockLinux e (Blocker.blockLinux e (Blocker.initB rule) p inb).st p inb).ok
      = true ∧
    (Blocker.blockLinux e (Blocker.initB rule) p inb).tr
      = [Blocker.BCmd.iptAddPid (Blocker.chainName inb) pid] ∧
    (Blocker.blockLinux e (Blocker.blockLinux e (Blocker.initB rule) p inb).st p inb).tr
      = [Blocker.BCmd.iptAddPid (Blocker.chainName inb) pid] ∧
    (if inb then
      (Blocker.blockLinux e (Blocker.blockLinux e (Blocker.initB rule) p inb).st p inb).st.blocked_pids_in
     else
      (Blocker.blockLinux e (Blocker.blockLinux e (Blocker.initB rule) p inb).st p inb).st.blocked_pids_out)
      = [pid] ∧
    Blocker.isBlocked
      (Blocker.blockLinux e (Blocker.blockLinux e (Blocker.initB rule) p inb).st p inb).st
      = true := by
  cases inb
  · simp only [Blocker.chainName, if_false, Bool.false_eq_true] at h4
    have hr1 : Blocker.blockLinux e (Blocker.initB rule) p false
        = ⟨true, ⟨rule, p, "", [pid], [], "", true, false⟩,
           [Blocker.BCmd.iptAddPid "NETCTRL_OUT" pid]⟩ := by
      unfold Blocker.blockLinux
      rw [h1]
      simp [h2, h3, h4, Blocker.initB, Blocker.resolveCache, Blocker.setFlag,
        Blocker.setInsert, Blocker.chainName]
    have hr2 : Blocker.blockLinux e (⟨rule, p, "", [pid], [], "", true, false⟩ : Blocker.BState) p false
        = ⟨true, ⟨rule, p, "", [pid], [], "", true, false⟩,
           [Blocker.BCmd.iptAddPid "NETCTRL_OUT" pid]⟩ := by
      unfold Blocker.blockLinux
      rw [h1]
      by_cases hp : p = ""
      · subst hp
        simp [h2, h3, h4, Blocker.resolveCache, Blocker.setFlag, Blocker.setInsert,
          Blocker.chainName]
      · simp [h2, h3, h4, hp, Blocker.resolveCache, Blocker.setFlag, Blocker.setInsert,
          Blocker.chainName]
    rw [hr1]
    simp only
    rw [hr2]
    simp [Blocker.isBlocked, Blocker.chainName]
  · simp only [Blocker.chainName, if_true] at h4
    have hr1 : Blocker.blockLinux e (Blocker.initB rule) p true
        = ⟨true, ⟨rule, p, "", [], [pid], "", false, true⟩,
           [Blocker.BCmd.iptAddPid "NETCTRL_IN" pid]⟩ := by
      unfold Blocker.blockLinux
      rw [h1]
      simp [h2, h3, h4, Blocker.initB, Blocker.resolveCache, Blocker.setFlag,
        Blocker.setInsert, Blocker.chainName]
    have hr2 : Blocker.blockLinux e (⟨rule, p, "", [], [pid], "", false, true⟩ : Blocker.BState) p true
        = ⟨true, ⟨rule, p, "", [], [pid], "", false, true⟩,
           [Blocker.BCmd.iptAddPid "NETCTRL_IN" pid]⟩ := by
      unfold Blocker.blockLinux
      rw [h1]
      by_cases hp : p = ""
      · subst hp
        simp [h2, h3, h4, Blocker.resolveCache, Blocker.setFlag, Blocker.setInsert,
          Blocker.chainName]
      · simp [h2, h3, h4, hp, Blocker.resolveCache, Blocker.setFlag, Blocker.setInsert,
          Blocker.chainName]
    rw [hr1]
    simp only
    rw [hr2]
    simp [Blocker.isBlocked, Blocker.chainName]

/-- C1 witness: the amended statement at the concrete always-succeeding
environment, PID 7, outbound direction. -/
theorem c1_witness :
    envPidOk.pgrep "procA" = some 7 ∧ (0 : Int) < 7 ∧ envPidOk.cgroupLine 7 = none ∧
    envPidOk.sysOk (Blocker.BCmd.iptAddPid (Blocker.chainName false) 7) = true ∧
    (Blocker.blockLinux envPidOk (Blocker.initB "netctrl") "procA" false).ok = true ∧
    (Blocker.blockLinux envPidOk
      (Blocker.blockLinux envPidOk (Blocker.initB "netctrl") "procA" false).st
      "procA" false).ok = true :=
  ⟨rfl, by decide, rfl, rfl,
   (c1_apply_twice_amended envPidOk "netctrl" "procA" 7 false rfl (by decide) rfl rfl).1,
   (c1_apply_twice_amended envPidOk "netctrl" "procA" 7 false rfl (by decide) rfl rfl).2.1⟩

/-- Helper for C4: whenever `blockLinux` returns `false`, the ledger part of
the state — both PID sets and both direction flags — is unchanged (the
cached `process_name_` / `blocked_cgroup_` may well have been written). -/
theorem blockLinux_fail_pres (e : Blocker.BEnv) (s : Blocker.BState) (p : String) (inb : Bool)
    (h : (Blocker.blockLinux e s p inb).ok = false) :
    (Blocker.blockLinux e s p inb).st.blocked_pids_out = s.blocked_pids_out ∧
    (Blocker.blockLinux e s p inb).st.blocked_pids_in = s.blocked_pids_in ∧
    (Blocker.blockLinux e s p inb).st.is_blocked_outbound = s.is_blocked_outbound ∧
    (Blocker.blockLinux e s p inb).st.is_blocked_inbound = s.is_blocked_inbound := by
  simp only [Blocker.blockLinux] at h ⊢
  rcases hpg : e.pgrep p with _ | pid <;> simp only [hpg] at h ⊢
  · simp_all
  · obtain ⟨a, b, c, d⟩ := resolveCache_pres e s p pid
    by_cases hpid : pid > 0
    · rw [if_pos hpid] at h ⊢
      split at h
      · split at h <;> simp_all
      · split at h <;> simp_all
    · rw [if_neg hpid] at h ⊢
      simp

/-- Helper for C4: whenever `blockWindows` returns `false`, both PID sets
and both direction flags are unchanged (the cached `exe_path_` /
`process_name_` may well have been written). -/
theorem blockWindows_fail_pres (e : Blocker.BEnv) (s : Blocker.BState) (p : String) (inb : Bool)
    (h : (Blocker.blockWindows e s p inb).ok = false) :
    (Blocker.blockWindows e s p inb).st.blocked_pids_out = s.blocked_pids_out ∧
    (Blocker.blockWindows e s p inb).st.blocked_pids_in = s.blocked_pids_in ∧
    (Blocker.blockWindows e s p inb).st.is_blocked_outbound = s.is_blocked_outbound ∧
    (Blocker.blockWindows e s p inb).st.is_blocked_inbound = s.is_blocked_inbound := by
  simp only [Blocker.blockWindows] at h ⊢
  rcases hre : Blocker.resolveExePath e s p with _ | s1 <;> simp only [hre] at h ⊢
  · simp_all
  · obtain ⟨a, b, c, d⟩ := resolveExePath_pres e s p s1 hre
    split at h <;> split at h <;> simp_all [Blocker.setFlag]

/-- C4 counterexample: with resolution succeeding (PID 5, not flatpak) but
the external apply command failing, `blockOutbound` (via `blockLinux`)
returns `false` — yet the internal state is not unchanged: the cached
`process_name_` has been set to the requested name. -/
theorem c4_counterexample :
    (Blocker.blockLinux envPidFail (Blocker.initB "netctrl") "procA" false).ok = false ∧
    (Blocker.blockLinux envPidFail (Blocker.initB "netctrl") "procA" false).st.process_name
      = "procA" ∧
    (Blocker.initB "netctrl").process_name = "" := by decide

/-- C4 amended: a failed apply (resolution failure or external command
failure, on either platform) returns `false` and inserts nothing into the
ledger — both PID sets and both direction flags, hence `isBlocked`, are
exactly as before, so from the initial state the ledger remains empty — but
the cached resolution fields (`process_name_` / `blocked_cgroup_` on Linux,
`exe_path_` / `process_name_` on Windows) may be updated by the failed
call. -/
theorem c4_failed_apply_amended (win : Bool) (e : Blocker.BEnv) (s : Blocker.BState)
    (p : String) (inb : Bool)
    (h : (Blocker.blockDirection win e s p inb).ok = false) :
    (Blocker.blockDirection win e s p inb).st.blocked_pids_out = s.blocked_pids_out ∧
    (Blocker.blockDirection win e s p inb).st.blocked_pids_in = s.blocked_pids_in ∧
    (Blocker.blockDirection win e s p inb).st.is_blocked_outbound = s.is_blocked_outbound ∧
    (Blocker.blockDirection win e s p inb).st.is_blocked_inbound = s.is_blocked_inbound ∧
    Blocker.isBlocked (Blocker.blockDirection win e s p inb).st = Blocker.isBlocked s := by
  cases win
  · simp only [Blocker.blockDirection, Bool.false_eq_true, if_false] at h ⊢
    obtain ⟨a, b, c, d⟩ := blockLinux_fail_pres e s p inb h
    exact ⟨a, b, c, d, by simp [Blocker.isBlocked, c, d]⟩
  · simp only [Blocker.blockDirection, if_true] at h ⊢
    obtain ⟨a, b, c, d⟩ := blockWindows_fail_pres e s p inb h
    exact ⟨a, b, c, d, by simp [Blocker.isBlocked, c, d]⟩

/-- C4 witness: the amended statement at the concrete failing environment. -/
theorem c4_witness :
    (Blocker.blockDirection false envPidFail (Blocker.initB "netctrl") "procA" false).ok
      = false ∧
    (Blocker.blockDirection false envPidFail (Blocker.initB "netctrl") "procA" false).st.blocked_pids_out
      = (Blocker.initB "netctrl").blocked_pids_out ∧
    Blocker.isBlocked
      (Blocker.blockDirection false envPidFail (Blocker.initB "netctrl") "procA" false).st
      = Blocker.isBlocked (Blocker.initB "netctrl") :=
  ⟨by decide,
   (c4_failed_apply_amended false envPidFail (Blocker.initB "netctrl") "procA" false
     (by decide)).1,
   (c4_failed_apply_amended false envPidFail (Blocker.initB "netctrl") "procA" false
     (by decide)).2.2.2.2⟩

/-- C8 witness: a concrete `applyLinux` with lag 5ms and 50% drop on
interface `eth0`. -/
theorem c8_witness :
    (Lag.initL "eth0").default_iface ≠ "" ∧
    (Lag.applyLinux envLagAll (Lag.initL "eth0") 5 50).ok = true ∧
    Lag.isActive (Lag.applyLinux envLagAll (Lag.initL "eth0") 5 50).st = true :=
  ⟨by decide,
   (c8_fire_and_forget_optimistic.2 envLagAll (Lag.initL "eth0") 5 50 (by decide)).1,
   (c8_fire_and_forget_optimistic.2 envLagAll (Lag.initL "eth0") 5 50 (by decide)).2.1⟩

end Netctrl
